import Mathlib

/-!
Verification development for the InsightSentry MCP streaming relay.

The embedding covers the streaming relay (`src/streamingServer.js`) and the
two reconnect-capable upstream stream clients
(`src/tools/insightsentry/insight-sentry/real-time-data-streaming.js`,
reconnect variant, and the news-feed reconnect variant in
`src/unnamed/part_003`).  Pure payload construction is modelled exactly
(JSON.stringify over the value fragment the tools build); the event-driven
parts are modelled as explicit step functions over session/client states,
with JavaScript event-loop ordering reflected in the step relations.
-/

/-- JSON values, restricted to the fragment the tools construct and inspect.
Numbers are integers: every numeric field in the streaming payloads
(timestamps, bar intervals) is integral in the source. -/
inductive JVal where
  | jnull : JVal
  | jbool : Bool → JVal
  | jnum : Int → JVal
  | jstr : String → JVal
  | jarr : List JVal → JVal
  | jobj : List (String × JVal) → JVal

/-- String escaping as performed by JSON.stringify on the character sets the
tools emit (quotes and backslashes; control characters do not occur in the
embedded payloads). -/
def jsEscapeChar (c : Char) : String :=
  if c = '"' then "\\\"" else if c = '\\' then "\\\\" else String.singleton c

def jsEscape (s : String) : String :=
  String.join (s.toList.map jsEscapeChar)

mutual

/-- JSON.stringify: object keys in insertion order, no whitespace. -/
def JVal.stringify : JVal → String
  | .jnull => "null"
  | .jbool true => "true"
  | .jbool false => "false"
  | .jnum n => toString n
  | .jstr s => "\"" ++ jsEscape s ++ "\""
  | .jarr xs => "[" ++ JVal.stringifyArr xs ++ "]"
  | .jobj fs => "\x7b" ++ JVal.stringifyObj fs ++ "\x7d"

def JVal.stringifyArr : List JVal → String
  | [] => ""
  | [x] => JVal.stringify x
  | x :: y :: xs => JVal.stringify x ++ "," ++ JVal.stringifyArr (y :: xs)

def JVal.stringifyObj : List (String × JVal) → String
  | [] => ""
  | [(k, v)] => "\"" ++ jsEscape k ++ "\":" ++ JVal.stringify v
  | (k, v) :: f :: fs =>
      "\"" ++ jsEscape k ++ "\":" ++ JVal.stringify v ++ "," ++ JVal.stringifyObj (f :: fs)

end

/-- Property access `obj[k]`: `none` models JavaScript `undefined`. -/
def JVal.getField : JVal → String → Option JVal
  | .jobj fs, k => (fs.find? (fun p => p.fst == k)).map Prod.snd
  | _, _ => none

/-- JavaScript truthiness on the embedded value fragment. -/
def jsTruthy : JVal → Bool
  | .jnull => false
  | .jbool b => b
  | .jnum n => n != 0
  | .jstr s => s != ""
  | .jarr _ => true
  | .jobj _ => true

/-- Truthiness of a possibly-undefined value. -/
def jsTruthyOpt : Option JVal → Bool
  | none => false
  | some j => jsTruthy j

def JVal.asInt : JVal → Option Int
  | .jnum n => some n
  | _ => none

/-! ### Handshake payload builders

From the `ws.onopen` handlers of the two reconnect-capable stream clients
(real-time-data-streaming.js lines 311-327 and unnamed/part_003 lines 51-71).
-/

/-- `JSON.stringify({ type: 'auth', api_key: websocketKey })` (market-data kind). -/
def rtAuthMessage (websocketKey : String) : String :=
  JVal.stringify (JVal.jobj [("type", JVal.jstr "auth"), ("api_key", JVal.jstr websocketKey)])

/-- `JSON.stringify({ api_key: websocketKey, subscriptions: subscriptions })`.
The subscriptions array is caller-supplied and serialized untouched. -/
def rtSubscribeMessage (websocketKey : String) (subscriptions : List JVal) : String :=
  JVal.stringify (JVal.jobj
    [("api_key", JVal.jstr websocketKey), ("subscriptions", JVal.jarr subscriptions)])

/-- `JSON.stringify({ api_key: websocketKey })` (news kind auth). -/
def newsAuthMessage (websocketKey : String) : String :=
  JVal.stringify (JVal.jobj [("api_key", JVal.jstr websocketKey)])

/-- `JSON.stringify({ type: 'filter_symbols', symbols: symbols })`. -/
def newsFilterSymbolsMessage (symbols : List String) : String :=
  JVal.stringify (JVal.jobj
    [("type", JVal.jstr "filter_symbols"), ("symbols", JVal.jarr (symbols.map JVal.jstr))])

/-- `JSON.stringify({ type: 'filter_keywords', keywords: keywords })`. -/
def newsFilterKeywordsMessage (keywords : List String) : String :=
  JVal.stringify (JVal.jobj
    [("type", JVal.jstr "filter_keywords"), ("keywords", JVal.jarr (keywords.map JVal.jstr))])

/-- Immutable closure context of one market-data stream client instance:
the validated `websocketKey` and `subscriptions` destructured from `params`
once, never reassigned. -/
structure RtCtx where
  websocketKey : String
  subscriptions : List JVal

/-- Immutable closure context of one news stream client instance. -/
structure NewsCtx where
  symbols : Option (List String)
  keywords : Option (List String)
  websocketKey : String

/-- The market-data `ws.onopen` handshake: auth payload, then the unified
subscriptions payload, in that order. -/
def rtHandshakeSends (ctx : RtCtx) : List String :=
  [rtAuthMessage ctx.websocketKey, rtSubscribeMessage ctx.websocketKey ctx.subscriptions]

/-- The news `ws.onopen` handshake: auth payload, then
`filter_symbols` if `symbols && symbols.length > 0`, then
`filter_keywords` if `keywords && keywords.length > 0`. -/
def newsHandshakeSends (ctx : NewsCtx) : List String :=
  newsAuthMessage ctx.websocketKey ::
    ((match ctx.symbols with
      | some l => if 0 < l.length then [newsFilterSymbolsMessage l] else []
      | none => []) ++
     (match ctx.keywords with
      | some l => if 0 < l.length then [newsFilterKeywordsMessage l] else []
      | none => []))

/-! ### Inbound upstream message classification

From the `ws.onmessage` handlers (real-time-data-streaming.js lines 335-365,
unnamed/part_003 lines 84-111).  The raw frame is either the literal string
`pong`, a JSON document, or unparseable text; classification happens after
`JSON.parse`, which the wire-message type records.
-/

/-- 10000 ms stale threshold (`STALE_DATA_THRESHOLD_MS` / `STALE_NEWS_THRESHOLD_MS`). -/
def staleThresholdMs : Int := 10000

/-- An inbound frame as the handlers see it: the literal `pong` heartbeat,
a successfully parsed JSON document, or a payload `JSON.parse` throws on. -/
inductive WireMsg where
  | pongText : WireMsg
  | jsonMsg : JVal → WireMsg
  | nonJsonText : String → WireMsg

/-- Timestamp extraction of the market-data handler: if `data.series` and
`data.series.t` are truthy, `t` is seconds, scaled by 1000; else if
`data.timestamp` is truthy it is milliseconds when above `1e12`, else
seconds scaled by 1000.  `none` models a null/NaN timestamp (which the
truthiness guard below treats as absent). -/
def rtExtractTimestampMs (data : JVal) : Option Int :=
  let seriesT := (data.getField "series").bind (fun s => JVal.getField s "t")
  if jsTruthyOpt (data.getField "series") && jsTruthyOpt seriesT then
    (seriesT.bind JVal.asInt).map (fun t => t * 1000)
  else
    let ts := data.getField "timestamp"
    if jsTruthyOpt ts then
      (ts.bind JVal.asInt).map (fun n => if n > 1000000000000 then n else n * 1000)
    else none

/-- Timestamp extraction of the news handler: only `data.timestamp`. -/
def newsExtractTimestampMs (data : JVal) : Option Int :=
  let ts := data.getField "timestamp"
  if jsTruthyOpt ts then
    (ts.bind JVal.asInt).map (fun n => if n > 1000000000000 then n else n * 1000)
  else none

/-- Outcome of one market-data `ws.onmessage` run. -/
inductive RtMsgOutcome where
  | heartbeatPong : RtMsgOutcome
  | serverHeartbeat : RtMsgOutcome
  | staleDiscarded : RtMsgOutcome
  | handledSeries : RtMsgOutcome
  | handledQuote : RtMsgOutcome
  | handledOther : RtMsgOutcome
  | nonJson : RtMsgOutcome
deriving DecidableEq

/-- The branches that deliver the message as data (rather than consuming it
as liveness traffic or discarding it). -/
def RtMsgOutcome.isDataDelivery : RtMsgOutcome → Bool
  | .handledSeries => true
  | .handledQuote => true
  | .handledOther => true
  | _ => false

/-- The market-data `ws.onmessage` classification: `pong` short-circuits,
`server_time` messages are heartbeats, then the stale check
`dataTimestamp && now - dataTimestamp > STALE_DATA_THRESHOLD_MS` (a zero
timestamp is falsy), then the series / quote / other dispatch. -/
def rtOnMessage (now : Int) (m : WireMsg) : RtMsgOutcome :=
  match m with
  | .pongText => .heartbeatPong
  | .nonJsonText _ => .nonJson
  | .jsonMsg data =>
    if jsTruthyOpt (data.getField "server_time") then .serverHeartbeat
    else
      let isStale :=
        match rtExtractTimestampMs data with
        | some ts => ts != 0 && decide (now - ts > staleThresholdMs)
        | none => false
      if isStale then .staleDiscarded
      else if jsTruthyOpt (data.getField "series") then .handledSeries
      else if (data.getField "last_price").isSome then .handledQuote
      else .handledOther

/-- Outcome of one news `ws.onmessage` run. -/
inductive NewsMsgOutcome where
  | heartbeatPong : NewsMsgOutcome
  | serverHeartbeat : NewsMsgOutcome
  | staleDiscarded : NewsMsgOutcome
  | handledNews : NewsMsgOutcome
  | nonJson : NewsMsgOutcome
deriving DecidableEq

def NewsMsgOutcome.isDataDelivery : NewsMsgOutcome → Bool
  | .handledNews => true
  | _ => false

/-- The news `ws.onmessage` classification (unnamed/part_003 lines 84-111). -/
def newsOnMessage (now : Int) (m : WireMsg) : NewsMsgOutcome :=
  match m with
  | .pongText => .heartbeatPong
  | .nonJsonText _ => .nonJson
  | .jsonMsg data =>
    if jsTruthyOpt (data.getField "server_time") then .serverHeartbeat
    else
      let isStale :=
        match newsExtractTimestampMs data with
        | some ts => ts != 0 && decide (now - ts > staleThresholdMs)
        | none => false
      if isStale then .staleDiscarded
      else .handledNews

/-! ### Reconnect-capable stream client machine

Both reconnect variants (real-time-data-streaming.js lines 267-400 and
unnamed/part_003 lines 10-133) share one skeleton: mutable closure state
`reconnectDelay` / `shouldReconnect` / `lastDataTimestamp` / interval
handles, with `connect()` installing `onopen` / `onmessage` / `onerror` /
`onclose` on each new socket.  The machines differ only in the handshake
payloads sent in `onopen`, so the step function is parameterized by that
payload list and instantiated per tool below.
-/

def initialReconnectDelay : Nat := 2000

def maxReconnectDelay : Nat := 10000

/-- The mutable closure state of one stream client instance. -/
structure StreamClientState where
  reconnectDelay : Nat
  shouldReconnect : Bool
  lastDataTimestamp : Int
  gapMonitorOn : Bool
  pingOn : Bool
  promiseResolved : Bool
  reconnectPending : Bool
  socketsCreated : Nat
deriving DecidableEq

/-- State after `executeFunction` ran its body and `connect()` built the
first socket: delay at the initial 2 s, reconnects enabled, one socket. -/
def clientInitState (startTime : Int) : StreamClientState :=
  { reconnectDelay := initialReconnectDelay
    shouldReconnect := true
    lastDataTimestamp := startTime
    gapMonitorOn := false
    pingOn := false
    promiseResolved := false
    reconnectPending := false
    socketsCreated := 1 }

/-- Socket / timer events dispatched to the stream client. -/
inductive ClientEvent where
  | openEvt : Int → ClientEvent
  | msgEvt : Int → ClientEvent
  | errorEvt : ClientEvent
  | closeEvt : ClientEvent
  | timerFireEvt : ClientEvent
deriving DecidableEq

/-- Externally visible actions of the stream client handlers.  `reject` is
in scope in every executor (and the claim set asks whether it ever runs),
so it appears as a constructor even though no handler emits it. -/
inductive ClientEffect where
  | sendUp : String → ClientEffect
  | resolvePromiseEff : ClientEffect
  | rejectPromiseEff : String → ClientEffect
  | closeSocketEff : ClientEffect
  | scheduleReconnectEff : Nat → ClientEffect
  | newConnectionEff : ClientEffect
deriving DecidableEq

/-- One handler dispatch.  `onopen`: reset the delay, send the handshake
payloads, restart the gap monitor and ping interval, resolve the promise.
`onmessage`: refresh `lastDataTimestamp` (classification is pure, above).
`onerror`: `ws.close()`.  `onclose`: stop the intervals and, when
`shouldReconnect`, schedule a reconnect after the current delay.  Timer
fire: double the delay up to the cap and run `connect()` again. -/
def clientStep (handshake : List String) (s : StreamClientState) :
    ClientEvent → StreamClientState × List ClientEffect
  | .openEvt now =>
      ({ s with reconnectDelay := initialReconnectDelay
                lastDataTimestamp := now
                gapMonitorOn := true
                pingOn := true
                promiseResolved := true },
       handshake.map ClientEffect.sendUp ++ [ClientEffect.resolvePromiseEff])
  | .msgEvt now => ({ s with lastDataTimestamp := now }, [])
  | .errorEvt => (s, [ClientEffect.closeSocketEff])
  | .closeEvt =>
      let s1 := { s with gapMonitorOn := false, pingOn := false }
      if s.shouldReconnect then
        ({ s1 with reconnectPending := true },
         [ClientEffect.scheduleReconnectEff s.reconnectDelay])
      else (s1, [])
  | .timerFireEvt =>
      if s.reconnectPending then
        ({ s with reconnectDelay := min (2 * s.reconnectDelay) maxReconnectDelay
                  reconnectPending := false
                  socketsCreated := s.socketsCreated + 1 },
         [ClientEffect.newConnectionEff])
      else (s, [])

def clientRun (handshake : List String) (s : StreamClientState) :
    List ClientEvent → StreamClientState
  | [] => s
  | e :: es => clientRun handshake (clientStep handshake s e).1 es

/-- Concatenated effects of a run, in dispatch order. -/
def clientEffects (handshake : List String) (s : StreamClientState) :
    List ClientEvent → List ClientEffect
  | [] => []
  | e :: es =>
      (clientStep handshake s e).2 ++ clientEffects handshake (clientStep handshake s e).1 es

/-- The payloads passed to `ws.send` by each `onopen` dispatch of a run,
one list per connect attempt that reached `open`. -/
def clientOpensPayloads (handshake : List String) (s : StreamClientState) :
    List ClientEvent → List (List String)
  | [] => []
  | e :: es =>
      match e with
      | .openEvt _ =>
          ((clientStep handshake s e).2.filterMap
            (fun f => match f with | .sendUp p => some p | _ => none)) ::
            clientOpensPayloads handshake (clientStep handshake s e).1 es
      | _ => clientOpensPayloads handshake (clientStep handshake s e).1 es

/-- The delays (ms) of the `setTimeout` reconnect schedules of a run,
in order: the wait before each reconnect attempt. -/
def scheduledDelays (handshake : List String) (s : StreamClientState)
    (evts : List ClientEvent) : List Nat :=
  (clientEffects handshake s evts).filterMap
    (fun f => match f with | .scheduleReconnectEff d => some d | _ => none)

/-- The event trace of `k` consecutive failed reconnect rounds after a
transport close: each round is the close of the current transport followed
by the reconnect timer firing (which builds the next, again-failing socket). -/
def failTrace : Nat → List ClientEvent
  | 0 => []
  | k + 1 => ClientEvent.closeEvt :: ClientEvent.timerFireEvt :: failTrace k

/-! ### `executeFunction` entry validation

Market-data variant lines 276-281: reject when `!subscriptions` or
`!websocketKey`, before `new Promise` / `new WebSocket` runs.  News variant
(unnamed/part_003 lines 19-21): reject when `!websocketKey`.  An empty
string key is falsy; an array (even empty) is truthy.
-/

/-- `params` as passed to the market-data `executeFunction` (fields may be
absent: `none` models `undefined`). -/
structure RtRawParams where
  subscriptions : Option (List JVal)
  websocketKey : Option String

/-- `params` as passed to the news `executeFunction`. -/
structure NewsRawParams where
  symbols : Option (List String)
  keywords : Option (List String)
  websocketKey : Option String

/-- The zero-argument call `toolFunction()` hits the `params = {}` default. -/
def emptyNewsParams : NewsRawParams := ⟨none, none, none⟩

def emptyRtParams : RtRawParams := ⟨none, none⟩

/-- Result of running `executeFunction`: either the returned promise is
already rejected before any transport socket exists, or the client machine
started with its validated closure context. -/
inductive RtConnectOutcome where
  | rejectedBeforeSocket : String → RtConnectOutcome
  | started : RtCtx → StreamClientState → RtConnectOutcome

inductive NewsConnectOutcome where
  | rejectedBeforeSocket : String → NewsConnectOutcome
  | started : NewsCtx → StreamClientState → NewsConnectOutcome

def rtExecuteFunction (startTime : Int) (p : RtRawParams) : RtConnectOutcome :=
  match p.subscriptions with
  | none => .rejectedBeforeSocket "subscriptions array is required for real-time data stream."
  | some subs =>
    match p.websocketKey with
    | none => .rejectedBeforeSocket "websocketKey parameter is required for real-time data stream."
    | some k =>
      if k = "" then
        .rejectedBeforeSocket "websocketKey parameter is required for real-time data stream."
      else .started ⟨k, subs⟩ (clientInitState startTime)

def newsExecuteFunction (startTime : Int) (p : NewsRawParams) : NewsConnectOutcome :=
  match p.websocketKey with
  | none => .rejectedBeforeSocket "websocketKey parameter is required for news feed streaming."
  | some k =>
    if k = "" then
      .rejectedBeforeSocket "websocketKey parameter is required for news feed streaming."
    else .started ⟨p.symbols, p.keywords, k⟩ (clientInitState startTime)

/-! ### Relay connection dispatch

`streamingServer.js` lines 34-54: `new URL(req.url, base).pathname` drops
the query string, `substring(1)` drops the leading slash, the name is
looked up against the two registered tool definitions, and a known tool's
function is invoked as `toolFunction()` — with zero arguments.  Unknown
names get one error frame and `ws.close(1008, "Unknown tool")`.
-/

def newsFeedToolName : String := "connect_news_feed"

def realTimeDataToolName : String := "connect_real_time_data_stream"

inductive ToolKind where
  | newsFeed : ToolKind
  | realTimeData : ToolKind
deriving DecidableEq

def lookupTool (n : String) : Option ToolKind :=
  if n = newsFeedToolName then some ToolKind.newsFeed
  else if n = realTimeDataToolName then some ToolKind.realTimeData
  else none

/-- `new URL(req.url, ...).pathname.substring(1)`: the path up to the query
or fragment separator, without the leading `/`. -/
def pathToolNameChars (reqUrl : List Char) : List Char :=
  (reqUrl.takeWhile (fun c => c != '?' && c != '#')).drop 1

/-- Actions of the connection handler.  `invokeFactory` records how many
arguments the tool function is applied to. -/
inductive ConnEffect where
  | sendClient : String → ConnEffect
  | closeClient : Nat → String → ConnEffect
  | invokeFactory : ToolKind → Nat → ConnEffect
deriving DecidableEq

def unknownToolPayload (toolName : String) : String :=
  JVal.stringify (JVal.jobj [("error", JVal.jstr ("Unknown tool: " ++ toolName))])

def relayOnConnection (reqUrl : List Char) : List ConnEffect :=
  let toolName := String.mk (pathToolNameChars reqUrl)
  match lookupTool toolName with
  | none => [ConnEffect.sendClient (unknownToolPayload toolName),
             ConnEffect.closeClient 1008 "Unknown tool"]
  | some k => [ConnEffect.invokeFactory k 0]

/-! ### Relay session machine

The composition of one client channel (`ws`), the market-data reconnect
client, and the relay wiring of `streamingServer.js` lines 54-92.  In the
`awaitingUpstream` phase the tool's own handlers are installed on the
upstream socket and the relay has not yet assigned any handler to `ws`.
When the upstream socket opens, the tool handshake runs and resolves the
promise; the `.then` continuation is a microtask that runs before any
further socket event can be dispatched, so the same step reassigns
`clientSocket.onmessage` / `onerror` / `onclose` and `ws.onmessage` /
`onclose` to the relay handlers (overwriting the tool's) and enters the
`piping` phase.  A `ws.onclose` assigned after the client channel already
closed never fires, which the `piping` client-close guard reflects.
-/

/-- WebSocket `readyState`. -/
inductive ReadyState where
  | rsConnecting : ReadyState
  | rsOpen : ReadyState
  | rsClosing : ReadyState
  | rsClosed : ReadyState
deriving DecidableEq

inductive Phase where
  | awaitingUpstream : Phase
  | piping : Phase
deriving DecidableEq

/-- The event object a `ws`-library `onmessage` listener receives; the
payload is its `data` property. -/
structure MessageEvent where
  data : String
deriving DecidableEq

/-- A value handed to `socket.send`: either a raw payload string or a
`MessageEvent` object (which is not the payload it wraps). -/
inductive JsValue where
  | strVal : String → JsValue
  | messageEventVal : String → JsValue
deriving DecidableEq

structure SessCtx where
  toolName : String
  rtCtx : RtCtx

structure RelaySession where
  client : ReadyState
  upstream : ReadyState
  phase : Phase
  rt : StreamClientState
  clientClosedEvt : Bool

inductive SysEvent where
  | upOpenEvt : Int → SysEvent
  | upMsgEvt : MessageEvent → SysEvent
  | upErrorEvt : SysEvent
  | upCloseEvt : SysEvent
  | clientMsgEvt : MessageEvent → SysEvent
  | clientCloseEvt : SysEvent
  | reconnectTimerEvt : SysEvent
deriving DecidableEq

inductive SessEffect where
  | deliverData : String → SessEffect
  | deliverError : String → SessEffect
  | closeClient : Nat → String → SessEffect
  | sendUpstream : JsValue → SessEffect
  | closeUpstream : SessEffect
  | upstreamHandshakeSend : String → SessEffect
  | scheduleReconnect : Nat → SessEffect
  | newUpstreamConnection : SessEffect
deriving DecidableEq

/-- Tool-phase client effects seen at the session level. -/
def liftClientEffect : ClientEffect → Option SessEffect
  | .sendUp p => some (.upstreamHandshakeSend p)
  | .scheduleReconnectEff d => some (.scheduleReconnect d)
  | .newConnectionEff => some (.newUpstreamConnection)
  | .closeSocketEff => some (.closeUpstream)
  | .resolvePromiseEff => none
  | .rejectPromiseEff _ => none

/-- `JSON.stringify({ error: `Target WebSocket error for ...` })`. -/
def targetErrorPayload (toolName : String) : String :=
  JVal.stringify (JVal.jobj
    [("error", JVal.jstr ("Target WebSocket error for " ++ toolName))])

def targetClosedReason (toolName : String) : String :=
  "Target WebSocket for " ++ toolName ++ " closed."

/-- One event dispatch of the composed session. -/
def sessionStep (ctx : SessCtx) (s : RelaySession) :
    SysEvent → RelaySession × List SessEffect
  | .upOpenEvt now =>
      match s.phase with
      | .awaitingUpstream =>
          let r := clientStep (rtHandshakeSends ctx.rtCtx) s.rt (.openEvt now)
          ({ s with upstream := .rsOpen, rt := r.1, phase := .piping },
           r.2.filterMap liftClientEffect)
      | .piping => (s, [])
  | .upMsgEvt m =>
      match s.phase with
      | .awaitingUpstream =>
          -- tool `onmessage`: logs / classifies only (no forwarding path exists yet)
          (s, [])
      | .piping =>
          if s.client = .rsOpen then (s, [SessEffect.deliverData m.data]) else (s, [])
  | .upErrorEvt =>
      match s.phase with
      | .awaitingUpstream =>
          -- tool `onerror`: `ws.close()`
          ({ s with upstream := .rsClosing }, [SessEffect.closeUpstream])
      | .piping =>
          if s.client = .rsOpen then
            (s, [SessEffect.deliverError (targetErrorPayload ctx.toolName)])
          else (s, [])
  | .upCloseEvt =>
      match s.phase with
      | .awaitingUpstream =>
          let r := clientStep (rtHandshakeSends ctx.rtCtx) s.rt .closeEvt
          ({ s with upstream := .rsClosed, rt := r.1 }, r.2.filterMap liftClientEffect)
      | .piping =>
          if s.client = .rsOpen then
            ({ s with upstream := .rsClosed, client := .rsClosing },
             [SessEffect.closeClient 1000 (targetClosedReason ctx.toolName)])
          else ({ s with upstream := .rsClosed }, [])
  | .clientMsgEvt m =>
      match s.phase with
      | .awaitingUpstream => (s, [])
      | .piping =>
          if s.upstream = .rsOpen then
            (s, [SessEffect.sendUpstream (JsValue.messageEventVal m.data)])
          else (s, [])
  | .clientCloseEvt =>
      let s0 := { s with client := .rsClosed, clientClosedEvt := true }
      match s.phase with
      | .awaitingUpstream => (s0, [])
      | .piping =>
          match s.upstream with
          | .rsOpen => ({ s0 with upstream := .rsClosing }, [SessEffect.closeUpstream])
          | .rsConnecting => ({ s0 with upstream := .rsClosing }, [SessEffect.closeUpstream])
          | _ => (s0, [])
  | .reconnectTimerEvt =>
      if s.rt.reconnectPending then
        let r := clientStep (rtHandshakeSends ctx.rtCtx) s.rt .timerFireEvt
        ({ s with upstream := .rsConnecting, rt := r.1 }, r.2.filterMap liftClientEffect)
      else (s, [])

def sessionRun (ctx : SessCtx) (s : RelaySession) : List SysEvent → RelaySession
  | [] => s
  | e :: es => sessionRun ctx (sessionStep ctx s e).1 es

/-- Per-step effect lists of a session run. -/
def sessionEffects (ctx : SessCtx) (s : RelaySession) : List SysEvent → List (List SessEffect)
  | [] => []
  | e :: es => (sessionStep ctx s e).2 :: sessionEffects ctx (sessionStep ctx s e).1 es

/-- A freshly wired piping session: both channels open, relay handlers
installed. -/
def pipingInitState (rt : StreamClientState) : RelaySession :=
  { client := .rsOpen, upstream := .rsOpen, phase := .piping, rt := rt,
    clientClosedEvt := false }

/-- The session at factory-invocation time: client channel open, first
upstream socket connecting, tool handlers installed. -/
def awaitingInitState (startTime : Int) : RelaySession :=
  { client := .rsOpen, upstream := .rsConnecting, phase := .awaitingUpstream,
    rt := clientInitState startTime, clientClosedEvt := false }

/-! ### Client-visible observation sequence

For the dichotomy claim the client-visible history of a piping session is
the sequence of data deliveries, error-payload deliveries, and channel
closures (whether relay-initiated `ws.close` or the client's own close).
A WebSocket transport emits, per socket, `message*` then optionally
`error` immediately followed by `close`, or just `close`, and nothing
after `close`; `UpShape` states that contract for the upstream events of
a trace.
-/

inductive Obs where
  | dataObs : String → Obs
  | errObs : String → Obs
  | closedObs : Obs
deriving DecidableEq

def stepObs (e : SysEvent) (fx : List SessEffect) : List Obs :=
  (fx.filterMap fun f =>
    match f with
    | .deliverData p => some (.dataObs p)
    | .deliverError p => some (.errObs p)
    | .closeClient _ _ => some .closedObs
    | _ => none) ++
  (match e with
   | .clientCloseEvt => [Obs.closedObs]
   | _ => [])

def sessionObs (ctx : SessCtx) (s : RelaySession) : List SysEvent → List Obs
  | [] => []
  | e :: es =>
      stepObs e (sessionStep ctx s e).2 ++ sessionObs ctx (sessionStep ctx s e).1 es

/-- The kinds of upstream-socket events, for stating transport order. -/
inductive UpEvKind where
  | upKOpen : UpEvKind
  | upKMsg : UpEvKind
  | upKErr : UpEvKind
  | upKClose : UpEvKind
deriving DecidableEq

def upKindOf : SysEvent → Option UpEvKind
  | .upOpenEvt _ => some .upKOpen
  | .upMsgEvt _ => some .upKMsg
  | .upErrorEvt => some .upKErr
  | .upCloseEvt => some .upKClose
  | .clientMsgEvt _ => none
  | .clientCloseEvt => none
  | .reconnectTimerEvt => none

def upEvtsOf : List SysEvent → List UpEvKind
  | [] => []
  | e :: es =>
      match upKindOf e with
      | some k => k :: upEvtsOf es
      | none => upEvtsOf es

/-- The event order an already-open WebSocket delivers:
`message* (error close | close | ε)`. -/
inductive UpShape : List UpEvKind → Prop where
  | nilShape : UpShape []
  | msgShape (t : List UpEvKind) : UpShape t → UpShape (.upKMsg :: t)
  | errCloseShape : UpShape [.upKErr, .upKClose]
  | closeShape : UpShape [.upKClose]

def errFreeObs (l : List Obs) : Bool :=
  l.all fun o => match o with | .errObs _ => false | _ => true

def dataFreeObs (l : List Obs) : Bool :=
  l.all fun o => match o with | .dataObs _ => false | _ => true

def hasClosedObs (l : List Obs) : Bool :=
  l.any fun o => match o with | .closedObs => true | _ => false

/-- The dichotomy the spec promises of one session's client-visible
history: data deliveries freely, but an error-payload delivery is unique,
is never followed by a data delivery, and is followed by a channel
closure. -/
def obsOk : List Obs → Bool
  | [] => true
  | .dataObs _ :: t => obsOk t
  | .closedObs :: t => obsOk t
  | .errObs _ :: t => dataFreeObs t && errFreeObs t && hasClosedObs t

/-- The delay sequence of consecutive failed rounds: the current delay, then
capped doubling. -/
def geomDelays (d : Nat) : Nat → List Nat
  | 0 => []
  | k + 1 => d :: geomDelays (min (2 * d) maxReconnectDelay) k

/-- The two-descriptor subscription list of the round-trip scenario. -/
def demoSubscriptions : List JVal :=
  [JVal.jobj [("code", JVal.jstr "NASDAQ:AAPL"), ("type", JVal.jstr "series"),
     ("bar_type", JVal.jstr "minute"), ("bar_interval", JVal.jnum 1)],
   JVal.jobj [("code", JVal.jstr "NASDAQ:TSLA"), ("type", JVal.jstr "quote")]]

/-- A concrete session context for evaluating the machines. -/
def demoSessCtx : SessCtx :=
  { toolName := realTimeDataToolName, rtCtx := { websocketKey := "key", subscriptions := [] } }

/-- Client closes while the upstream client is between reconnect attempts,
then the pending timer fires and the next attempt succeeds. -/
def c1Trace : List SysEvent :=
  [SysEvent.upCloseEvt, SysEvent.clientCloseEvt, SysEvent.reconnectTimerEvt,
   SysEvent.upOpenEvt 5000]

/-! ### Helper lemmas -/

/-- No step of the stream client machine changes `shouldReconnect`: the flag
is initialized `true` and no handler ever writes it. -/
theorem clientStep_shouldReconnect (h : List String) (s : StreamClientState)
    (e : ClientEvent) : ((clientStep h s e).1).shouldReconnect = s.shouldReconnect := by
  cases e <;> simp only [clientStep] <;> split <;> rfl

/-- No handler of the stream client ever calls `reject`: after the entry
validation passed, the executor's `reject` continuation is dead. -/
theorem clientEffects_no_reject (h : List String) (s : StreamClientState)
    (evts : List ClientEvent) (m : String) :
    ClientEffect.rejectPromiseEff m ∉ clientEffects h s evts := by
  induction evts generalizing s with
  | nil => simp [clientEffects]
  | cons e es ih =>
    simp only [clientEffects, List.mem_append]
    rintro (hmem | hmem)
    · cases e with
      | openEvt now =>
          simp only [clientStep, List.mem_append, List.mem_map, List.mem_singleton] at hmem
          rcases hmem with ⟨_, _, h'⟩ | h' <;> exact ClientEffect.noConfusion h'
      | msgEvt now => simp [clientStep] at hmem
      | errorEvt => simp [clientStep] at hmem
      | closeEvt =>
          simp only [clientStep] at hmem
          split at hmem <;> simp_all
      | timerFireEvt =>
          simp only [clientStep] at hmem
          split at hmem <;> simp_all
    · exact ih _ hmem

/-- The payloads a single `onopen` dispatch sends are exactly the handshake
list. -/
theorem sendUp_filterMap (l : List String) :
    ((l.map ClientEffect.sendUp ++ [ClientEffect.resolvePromiseEff]).filterMap
      (fun f => match f with | .sendUp p => some p | _ => none)) = l := by
  induction l with
  | nil => rfl
  | cons x xs ih => simpa [List.filterMap_cons] using ih

/-- Every connect attempt of a run replays the same handshake payload list. -/
theorem clientOpensPayloads_const (h : List String) (s : StreamClientState)
    (evts : List ClientEvent) (xs : List String)
    (hmem : xs ∈ clientOpensPayloads h s evts) : xs = h := by
  induction evts generalizing s with
  | nil => simp [clientOpensPayloads] at hmem
  | cons e es ih =>
    cases e with
    | openEvt now =>
        simp only [clientOpensPayloads, List.mem_cons] at hmem
        rcases hmem with hx | hx
        · rw [hx]; simpa [clientStep] using sendUp_filterMap h
        · exact ih _ hx
    | msgEvt now => exact ih _ hmem
    | errorEvt => exact ih _ hmem
    | closeEvt => exact ih _ hmem
    | timerFireEvt => exact ih _ hmem

/-- Over `k` failed rounds the scheduled waits are exactly the capped-doubling
sequence started from the current delay. -/
theorem scheduledDelays_failTrace (h : List String) (k : Nat) (s : StreamClientState)
    (hsr : s.shouldReconnect = true) :
    scheduledDelays h s (failTrace k) = geomDelays s.reconnectDelay k := by
  induction k generalizing s with
  | zero => rfl
  | succ k ih =>
    have h1 : clientStep h s ClientEvent.closeEvt =
        ({ s with gapMonitorOn := false, pingOn := false, reconnectPending := true },
         [ClientEffect.scheduleReconnectEff s.reconnectDelay]) := by
      simp [clientStep, hsr]
    have h2 : clientStep h (clientStep h s ClientEvent.closeEvt).1 ClientEvent.timerFireEvt =
        ({ s with gapMonitorOn := false, pingOn := false,
                  reconnectDelay := min (2 * s.reconnectDelay) maxReconnectDelay,
                  reconnectPending := false,
                  socketsCreated := s.socketsCreated + 1 },
         [ClientEffect.newConnectionEff]) := by
      rw [h1]; simp [clientStep]
    have hsr2 : ((clientStep h (clientStep h s ClientEvent.closeEvt).1
        ClientEvent.timerFireEvt).1).shouldReconnect = true := by
      rw [clientStep_shouldReconnect, clientStep_shouldReconnect]; exact hsr
    have h3 := ih ((clientStep h (clientStep h s ClientEvent.closeEvt).1
        ClientEvent.timerFireEvt).1) hsr2
    rw [h2] at h3
    simp only [failTrace, scheduledDelays, clientEffects, h1, h2, List.filterMap_append,
      List.filterMap_cons, geomDelays]
    simpa [scheduledDelays] using h3

/-- Closed form of the capped-doubling sequence: the `i`-th scheduled wait
from a starting delay `d ≤ ceiling` is `min (d * 2 ^ i) ceiling`. -/
theorem geomDelays_get (i : Nat) : ∀ (k : Nat) (d : Nat), i < k → d ≤ maxReconnectDelay →
    (geomDelays d k).get? i = some (min (d * 2 ^ i) maxReconnectDelay) := by
  induction i with
  | zero =>
    intro k d hik hd
    cases k with
    | zero => omega
    | succ k => simp [geomDelays, Nat.min_eq_left hd]
  | succ i ih =>
    intro k d hik hd
    cases k with
    | zero => omega
    | succ k =>
      have hle : min (2 * d) maxReconnectDelay ≤ maxReconnectDelay := Nat.min_le_right _ _
      have h' := ih k (min (2 * d) maxReconnectDelay) (by omega) hle
      rw [geomDelays, List.get?_cons_succ, h']
      congr 1
      have hp : 1 ≤ 2 ^ i := Nat.one_le_two_pow
      rcases Nat.le_total (2 * d) maxReconnectDelay with hc | hc
      · rw [Nat.min_eq_left hc]
        congr 1
        ring
      · rw [Nat.min_eq_right hc]
        have h10 : maxReconnectDelay ≤ maxReconnectDelay * 2 ^ i := by
          calc maxReconnectDelay = maxReconnectDelay * 1 := by ring
          _ ≤ maxReconnectDelay * 2 ^ i := Nat.mul_le_mul_left _ hp
        have h11 : maxReconnectDelay ≤ d * 2 ^ (i + 1) := by
          calc maxReconnectDelay ≤ 2 * d := hc
          _ = (2 * d) * 1 := by ring
          _ ≤ (2 * d) * 2 ^ i := Nat.mul_le_mul_left _ hp
          _ = d * 2 ^ (i + 1) := by ring
        rw [Nat.min_eq_right h10, Nat.min_eq_right h11]

theorem upEvtsOf_cons_open (n : Int) (es : List SysEvent) :
    upEvtsOf (SysEvent.upOpenEvt n :: es) = UpEvKind.upKOpen :: upEvtsOf es := rfl

theorem upEvtsOf_cons_msg (m : MessageEvent) (es : List SysEvent) :
    upEvtsOf (SysEvent.upMsgEvt m :: es) = UpEvKind.upKMsg :: upEvtsOf es := rfl

theorem upEvtsOf_cons_err (es : List SysEvent) :
    upEvtsOf (SysEvent.upErrorEvt :: es) = UpEvKind.upKErr :: upEvtsOf es := rfl

theorem upEvtsOf_cons_close (es : List SysEvent) :
    upEvtsOf (SysEvent.upCloseEvt :: es) = UpEvKind.upKClose :: upEvtsOf es := rfl

theorem upEvtsOf_cons_clientMsg (m : MessageEvent) (es : List SysEvent) :
    upEvtsOf (SysEvent.clientMsgEvt m :: es) = upEvtsOf es := rfl

theorem upEvtsOf_cons_clientClose (es : List SysEvent) :
    upEvtsOf (SysEvent.clientCloseEvt :: es) = upEvtsOf es := rfl

theorem upEvtsOf_cons_timer (es : List SysEvent) :
    upEvtsOf (SysEvent.reconnectTimerEvt :: es) = upEvtsOf es := rfl

/-- Once the relay handlers are wired the session stays in the piping phase:
no step reinstalls the tool handlers. -/
theorem sessionStep_phase_piping (ctx : SessCtx) (s : RelaySession) (e : SysEvent)
    (hp : s.phase = Phase.piping) : ((sessionStep ctx s e).1).phase = Phase.piping := by
  cases e <;> simp only [sessionStep, hp] <;>
    first
      | rfl
      | (split <;> rfl)
      | (split <;> simp [hp])

/-- A data frame reaches the client only from an upstream message event
dispatched while the client channel is OPEN, carrying that very payload. -/
theorem deliverData_step (ctx : SessCtx) (s : RelaySession) (e : SysEvent) (p : String)
    (hp : s.phase = Phase.piping)
    (hmem : SessEffect.deliverData p ∈ (sessionStep ctx s e).2) :
    ∃ m : MessageEvent, e = SysEvent.upMsgEvt m ∧ m.data = p ∧
      s.client = ReadyState.rsOpen := by
  cases e with
  | upMsgEvt m =>
      by_cases hc : s.client = ReadyState.rsOpen
      · refine ⟨m, rfl, ?_, hc⟩
        simp [sessionStep, hp, hc] at hmem
        exact hmem.symm
      · simp [sessionStep, hp, hc] at hmem
  | upOpenEvt n => simp [sessionStep, hp] at hmem
  | upErrorEvt =>
      by_cases hc : s.client = ReadyState.rsOpen <;> simp [sessionStep, hp, hc] at hmem
  | upCloseEvt =>
      by_cases hc : s.client = ReadyState.rsOpen <;> simp [sessionStep, hp, hc] at hmem
  | clientMsgEvt m =>
      by_cases hc : s.upstream = ReadyState.rsOpen <;> simp [sessionStep, hp, hc] at hmem
  | clientCloseEvt =>
      simp only [sessionStep, hp] at hmem
      cases hu : s.upstream <;> rw [hu] at hmem <;> simp at hmem
  | reconnectTimerEvt =>
      by_cases hr : s.rt.reconnectPending = true <;>
        simp [sessionStep, hp, hr, clientStep, liftClientEffect] at hmem

/-- An error payload reaches the client only from an upstream error event
dispatched while the client channel is OPEN, and it is the fixed structured
error payload. -/
theorem deliverError_step (ctx : SessCtx) (s : RelaySession) (e : SysEvent) (p : String)
    (hp : s.phase = Phase.piping)
    (hmem : SessEffect.deliverError p ∈ (sessionStep ctx s e).2) :
    e = SysEvent.upErrorEvt ∧ s.client = ReadyState.rsOpen ∧
      p = targetErrorPayload ctx.toolName := by
  cases e with
  | upErrorEvt =>
      by_cases hc : s.client = ReadyState.rsOpen
      · refine ⟨rfl, hc, ?_⟩
        simp [sessionStep, hp, hc] at hmem
        exact hmem
      · simp [sessionStep, hp, hc] at hmem
  | upOpenEvt n => simp [sessionStep, hp] at hmem
  | upMsgEvt m =>
      by_cases hc : s.client = ReadyState.rsOpen <;> simp [sessionStep, hp, hc] at hmem
  | upCloseEvt =>
      by_cases hc : s.client = ReadyState.rsOpen <;> simp [sessionStep, hp, hc] at hmem
  | clientMsgEvt m =>
      by_cases hc : s.upstream = ReadyState.rsOpen <;> simp [sessionStep, hp, hc] at hmem
  | clientCloseEvt =>
      simp only [sessionStep, hp] at hmem
      cases hu : s.upstream <;> rw [hu] at hmem <;> simp at hmem
  | reconnectTimerEvt =>
      by_cases hr : s.rt.reconnectPending = true <;>
        simp [sessionStep, hp, hr, clientStep, liftClientEffect] at hmem

/-- The relay closes the client channel only when the upstream socket
closes while the client channel is OPEN. -/
theorem closeClient_step (ctx : SessCtx) (s : RelaySession) (e : SysEvent) (c : Nat)
    (r : String) (hp : s.phase = Phase.piping)
    (hmem : SessEffect.closeClient c r ∈ (sessionStep ctx s e).2) :
    e = SysEvent.upCloseEvt ∧ s.client = ReadyState.rsOpen := by
  cases e with
  | upCloseEvt =>
      by_cases hc : s.client = ReadyState.rsOpen
      · exact ⟨rfl, hc⟩
      · simp [sessionStep, hp, hc] at hmem
  | upOpenEvt n => simp [sessionStep, hp] at hmem
  | upMsgEvt m =>
      by_cases hc : s.client = ReadyState.rsOpen <;> simp [sessionStep, hp, hc] at hmem
  | upErrorEvt =>
      by_cases hc : s.client = ReadyState.rsOpen <;> simp [sessionStep, hp, hc] at hmem
  | clientMsgEvt m =>
      by_cases hc : s.upstream = ReadyState.rsOpen <;> simp [sessionStep, hp, hc] at hmem
  | clientCloseEvt =>
      simp only [sessionStep, hp] at hmem
      cases hu : s.upstream <;> rw [hu] at hmem <;> simp at hmem
  | reconnectTimerEvt =>
      by_cases hr : s.rt.reconnectPending = true <;>
        simp [sessionStep, hp, hr, clientStep, liftClientEffect] at hmem

theorem upMsg_mem_kinds (m : MessageEvent) : ∀ (es : List SysEvent),
    SysEvent.upMsgEvt m ∈ es → UpEvKind.upKMsg ∈ upEvtsOf es := by
  intro es
  induction es with
  | nil => simp
  | cons e es ih =>
    intro hmem
    rcases List.mem_cons.1 hmem with h | h
    · rw [← h, upEvtsOf_cons_msg]; exact List.mem_cons_self _ _
    · cases e <;>
        simp only [upEvtsOf_cons_open, upEvtsOf_cons_msg, upEvtsOf_cons_err,
          upEvtsOf_cons_close, upEvtsOf_cons_clientMsg, upEvtsOf_cons_clientClose,
          upEvtsOf_cons_timer] <;>
        first
          | exact ih h
          | exact List.mem_cons_of_mem _ (ih h)

theorem upErr_mem_kinds : ∀ (es : List SysEvent),
    SysEvent.upErrorEvt ∈ es → UpEvKind.upKErr ∈ upEvtsOf es := by
  intro es
  induction es with
  | nil => simp
  | cons e es ih =>
    intro hmem
    rcases List.mem_cons.1 hmem with h | h
    · rw [← h, upEvtsOf_cons_err]; exact List.mem_cons_self _ _
    · cases e <;>
        simp only [upEvtsOf_cons_open, upEvtsOf_cons_msg, upEvtsOf_cons_err,
          upEvtsOf_cons_close, upEvtsOf_cons_clientMsg, upEvtsOf_cons_clientClose,
          upEvtsOf_cons_timer] <;>
        first
          | exact ih h
          | exact List.mem_cons_of_mem _ (ih h)

/-- A data observation in a piping run points back to an upstream message
event in the trace. -/
theorem dataObs_mem_source (ctx : SessCtx) : ∀ (es : List SysEvent) (s : RelaySession)
    (p : String), s.phase = Phase.piping → Obs.dataObs p ∈ sessionObs ctx s es →
    ∃ m : MessageEvent, SysEvent.upMsgEvt m ∈ es := by
  intro es
  induction es with
  | nil => simp [sessionObs]
  | cons e es ih =>
    intro s p hp hmem
    rcases List.mem_append.1 hmem with h | h
    · simp only [stepObs, List.mem_append] at h
      rcases h with h | h
      · rcases List.mem_filterMap.1 h with ⟨f, hf, hof⟩
        cases f <;> simp at hof
        rcases hof with ⟨hpf⟩
        rcases deliverData_step ctx s e _ hp (by exact hf) with ⟨m, hm, _, _⟩
        exact ⟨m, by rw [hm]; exact List.mem_cons_self _ _⟩
      · cases e <;> simp at h
    · rcases ih (sessionStep ctx s e).1 p
        (sessionStep_phase_piping ctx s e hp) h with ⟨m, hm⟩
      exact ⟨m, List.mem_cons_of_mem _ hm⟩

/-- An error observation in a piping run points back to an upstream error
event in the trace. -/
theorem errObs_mem_source (ctx : SessCtx) : ∀ (es : List SysEvent) (s : RelaySession)
    (p : String), s.phase = Phase.piping → Obs.errObs p ∈ sessionObs ctx s es →
    SysEvent.upErrorEvt ∈ es := by
  intro es
  induction es with
  | nil => simp [sessionObs]
  | cons e es ih =>
    intro s p hp hmem
    rcases List.mem_append.1 hmem with h | h
    · simp only [stepObs, List.mem_append] at h
      rcases h with h | h
      · rcases List.mem_filterMap.1 h with ⟨f, hf, hof⟩
        cases f <;> simp at hof
        rcases hof with ⟨hpf⟩
        rcases deliverError_step ctx s e _ hp (by exact hf) with ⟨hm, _, _⟩
        rw [hm]; exact List.mem_cons_self _ _
      · cases e <;> simp at h
    · exact List.mem_cons_of_mem _
        (ih (sessionStep ctx s e).1 p (sessionStep_phase_piping ctx s e hp) h)

/-- With no upstream message traffic left in the trace, a piping session
delivers no data frame; with no upstream error event, no error payload. -/
theorem obs_dataErrFree (ctx : SessCtx) (es : List SysEvent) (s : RelaySession)
    (hp : s.phase = Phase.piping)
    (hup : upEvtsOf es = [UpEvKind.upKClose] ∨ upEvtsOf es = []) :
    dataFreeObs (sessionObs ctx s es) = true ∧ errFreeObs (sessionObs ctx s es) = true := by
  constructor
  · refine List.all_eq_true.2 ?_
    intro x hx
    cases x with
    | dataObs p =>
        rcases dataObs_mem_source ctx es s p hp hx with ⟨m, hm⟩
        have := upMsg_mem_kinds m es hm
        rcases hup with h | h <;> rw [h] at this <;> simp at this
    | errObs p => rfl
    | closedObs => rfl
  · refine List.all_eq_true.2 ?_
    intro x hx
    cases x with
    | errObs p =>
        have := upErr_mem_kinds es (errObs_mem_source ctx es s p hp hx)
        rcases hup with h | h <;> rw [h] at this <;> simp at this
    | dataObs p => rfl
    | closedObs => rfl

/-- If the upstream trace still holds its terminal close and the client
channel is OPEN, the client-visible history contains a channel closure. -/
theorem obs_hasClosed (ctx : SessCtx) : ∀ (es : List SysEvent) (s : RelaySession),
    s.phase = Phase.piping → s.client = ReadyState.rsOpen →
    upEvtsOf es = [UpEvKind.upKClose] →
    hasClosedObs (sessionObs ctx s es) = true := by
  intro es
  induction es with
  | nil => intro s _ _ h; simp [upEvtsOf] at h
  | cons e es ih =>
    intro s hp hc hup
    cases e with
    | upOpenEvt n => rw [upEvtsOf_cons_open] at hup; simp at hup
    | upMsgEvt m => rw [upEvtsOf_cons_msg] at hup; simp at hup
    | upErrorEvt => rw [upEvtsOf_cons_err] at hup; simp at hup
    | upCloseEvt =>
        simp [sessionObs, stepObs, sessionStep, hp, hc, hasClosedObs]
    | clientMsgEvt m =>
        rw [upEvtsOf_cons_clientMsg] at hup
        have hstep : (sessionStep ctx s (SysEvent.clientMsgEvt m)).1 = s := by
          by_cases hu : s.upstream = ReadyState.rsOpen <;> simp [sessionStep, hp, hu]
        simp only [sessionObs, hstep]
        have := ih s hp hc hup
        simp only [stepObs, hasClosedObs, List.any_append] at *
        rw [this]
        simp
    | clientCloseEvt =>
        simp [sessionObs, stepObs, sessionStep, hp, hasClosedObs, List.any_append]
    | reconnectTimerEvt =>
        rw [upEvtsOf_cons_timer] at hup
        by_cases hr : s.rt.reconnectPending = true
        · have h1 : ((sessionStep ctx s SysEvent.reconnectTimerEvt).1).client =
              ReadyState.rsOpen := by simp [sessionStep, hr, clientStep]; exact hc
          have h2 := sessionStep_phase_piping ctx s SysEvent.reconnectTimerEvt hp
          have := ih _ h2 h1 hup
          simp only [sessionObs, stepObs, hasClosedObs, List.any_append] at *
          rw [this]
          simp [sessionStep, hr, clientStep, liftClientEffect]
        · have h1 : (sessionStep ctx s SysEvent.reconnectTimerEvt).1 = s := by
            simp [sessionStep, hr]
          have := ih s hp hc hup
          simp only [sessionObs, h1, stepObs, hasClosedObs, List.any_append] at *
          rw [this]
          simp [sessionStep, hr]

theorem obsOk_append_errFree : ∀ (xs rest : List Obs), errFreeObs xs = true →
    obsOk (xs ++ rest) = obsOk rest := by
  intro xs
  induction xs with
  | nil => intro rest _; rfl
  | cons x xs ih =>
    intro rest hfree
    cases x with
    | dataObs p => exact ih rest (by simpa [errFreeObs] using hfree)
    | closedObs => exact ih rest (by simpa [errFreeObs] using hfree)
    | errObs p => simp [errFreeObs] at hfree

theorem errObs_mem_stepObs (e : SysEvent) (fx : List SessEffect) (p : String)
    (hmem : Obs.errObs p ∈ stepObs e fx) : SessEffect.deliverError p ∈ fx := by
  simp only [stepObs, List.mem_append] at hmem
  rcases hmem with h | h
  · rcases List.mem_filterMap.1 h with ⟨f, hf, hof⟩
    cases f <;> simp at hof
    rcases hof with ⟨hpf⟩
    exact hf
  · cases e <;> simp at h

/-- A step that is not an upstream error dispatched on an open client
channel contributes no error observation. -/
theorem stepObs_errFree (ctx : SessCtx) (s : RelaySession) (e : SysEvent)
    (hp : s.phase = Phase.piping)
    (hne : ¬(e = SysEvent.upErrorEvt ∧ s.client = ReadyState.rsOpen)) :
    errFreeObs (stepObs e (sessionStep ctx s e).2) = true := by
  refine List.all_eq_true.2 ?_
  intro x hx
  cases x with
  | errObs p =>
      have hf := errObs_mem_stepObs e _ p hx
      rcases deliverError_step ctx s e p hp hf with ⟨he, hc, _⟩
      exact absurd ⟨he, hc⟩ hne
  | dataObs p => rfl
  | closedObs => rfl

/-- Main dichotomy induction: from any piping state, a trace whose upstream
events respect WebSocket order yields a well-formed client history. -/
theorem sessionObs_ok_aux (ctx : SessCtx) : ∀ (tr : List SysEvent) (s : RelaySession),
    s.phase = Phase.piping → UpShape (upEvtsOf tr) →
    obsOk (sessionObs ctx s tr) = true := by
  intro tr
  induction tr with
  | nil => intro s _ _; rfl
  | cons e es ih =>
    intro s hp hshape
    have hp' := sessionStep_phase_piping ctx s e hp
    cases e with
    | upOpenEvt n =>
        rw [upEvtsOf_cons_open] at hshape
        generalize hu : upEvtsOf es = l at hshape
        cases hshape
    | upMsgEvt m =>
        rw [upEvtsOf_cons_msg] at hshape
        generalize hu : upEvtsOf es = l at hshape
        cases hshape with
        | msgShape t ht =>
            simp only [sessionObs]
            rw [obsOk_append_errFree _ _ (stepObs_errFree ctx s _ hp (by simp))]
            exact ih _ hp' (by rw [hu]; exact ht)
    | upErrorEvt =>
        rw [upEvtsOf_cons_err] at hshape
        generalize hu : upEvtsOf es = l at hshape
        cases hshape
        by_cases hc : s.client = ReadyState.rsOpen
        · have hsame : (sessionStep ctx s SysEvent.upErrorEvt).1 = s := by
            simp [sessionStep, hp, hc]
          have hfx : (sessionStep ctx s SysEvent.upErrorEvt).2 =
              [SessEffect.deliverError (targetErrorPayload ctx.toolName)] := by
            simp [sessionStep, hp, hc]
          have hfree := obs_dataErrFree ctx es s hp (Or.inl hu)
          have hclosed := obs_hasClosed ctx es s hp hc hu
          simp only [sessionObs, hsame, hfx, stepObs, List.filterMap, List.nil_append,
            List.append_nil, List.cons_append, obsOk]
          simp [hfree.1, hfree.2, hclosed]
        · have hsame : (sessionStep ctx s SysEvent.upErrorEvt).1 = s := by
            simp [sessionStep, hp, hc]
          have hfx : (sessionStep ctx s SysEvent.upErrorEvt).2 = [] := by
            simp [sessionStep, hp, hc]
          simp only [sessionObs, hsame, hfx, stepObs, List.filterMap, List.nil_append,
            List.append_nil]
          exact ih s hp (by rw [hu]; exact UpShape.closeShape)
    | upCloseEvt =>
        rw [upEvtsOf_cons_close] at hshape
        generalize hu : upEvtsOf es = l at hshape
        cases hshape
        simp only [sessionObs]
        rw [obsOk_append_errFree _ _ (stepObs_errFree ctx s _ hp (by simp))]
        exact ih _ hp' (by rw [hu]; exact UpShape.nilShape)
    | clientMsgEvt m =>
        rw [upEvtsOf_cons_clientMsg] at hshape
        simp only [sessionObs]
        rw [obsOk_append_errFree _ _ (stepObs_errFree ctx s _ hp (by simp))]
        exact ih _ hp' hshape
    | clientCloseEvt =>
        rw [upEvtsOf_cons_clientClose] at hshape
        simp only [sessionObs]
        rw [obsOk_append_errFree _ _ (stepObs_errFree ctx s _ hp (by simp))]
        exact ih _ hp' hshape
    | reconnectTimerEvt =>
        rw [upEvtsOf_cons_timer] at hshape
        simp only [sessionObs]
        rw [obsOk_append_errFree _ _ (stepObs_errFree ctx s _ hp (by simp))]
        exact ih _ hp' hshape

/-- Trace-level no-buffering: every data frame delivered during a piping
run is produced at the very step of an upstream message event carrying that
payload, dispatched while the client channel is OPEN.  A message dropped by
the guard is never delivered later. -/
theorem sessionEffects_deliverData (ctx : SessCtx) : ∀ (tr : List SysEvent)
    (s : RelaySession) (i : Nat) (fx : List SessEffect) (p : String),
    s.phase = Phase.piping → (sessionEffects ctx s tr).get? i = some fx →
    SessEffect.deliverData p ∈ fx →
    ∃ m : MessageEvent, tr.get? i = some (SysEvent.upMsgEvt m) ∧ m.data = p ∧
      (sessionRun ctx s (tr.take i)).client = ReadyState.rsOpen := by
  intro tr
  induction tr with
  | nil => intro s i fx p _ hget _; simp [sessionEffects] at hget
  | cons e es ih =>
    intro s i fx p hp hget hmem
    cases i with
    | zero =>
        simp only [sessionEffects, List.get?_cons_zero, Option.some.injEq] at hget
        rw [← hget] at hmem
        rcases deliverData_step ctx s e p hp hmem with ⟨m, he, hd, hc⟩
        exact ⟨m, by rw [he]; rfl, hd, by simpa [sessionRun] using hc⟩
    | succ i =>
        simp only [sessionEffects, List.get?_cons_succ] at hget
        rcases ih (sessionStep ctx s e).1 i fx p
          (sessionStep_phase_piping ctx s e hp) hget hmem with ⟨m, hm, hd, hcl⟩
        exact ⟨m, by simpa using hm, hd, by simpa [sessionRun] using hcl⟩

/-! ### Claim theorems -/

/-- Claim C5: after a successful (re)connect the reconnect delay is reset to
the initial 2 s before any subsequent close is handled, and across `k`
consecutive failed connect attempts after a transport close the wait
scheduled before attempt `k` is `min (2000 * 2 ^ (k - 1)) 10000` ms. -/
theorem c5_reconnect_backoff :
    (∀ (ctx : RtCtx) (s : StreamClientState) (now : Int),
      ((clientStep (rtHandshakeSends ctx) s (ClientEvent.openEvt now)).1).reconnectDelay =
        initialReconnectDelay) ∧
    (∀ (ctx : RtCtx) (s : StreamClientState) (now : Int) (k : Nat),
      s.shouldReconnect = true → 1 ≤ k →
      (scheduledDelays (rtHandshakeSends ctx)
          ((clientStep (rtHandshakeSends ctx) s (ClientEvent.openEvt now)).1)
          (failTrace k)).get? (k - 1) =
        some (min (initialReconnectDelay * 2 ^ (k - 1)) maxReconnectDelay)) := by
  constructor
  · intro ctx s now; rfl
  · intro ctx s now k hsr hk
    have hs1 : ((clientStep (rtHandshakeSends ctx) s
        (ClientEvent.openEvt now)).1).shouldReconnect = true := by
      rw [clientStep_shouldReconnect]; exact hsr
    rw [scheduledDelays_failTrace _ k _ hs1]
    have hdelay : ((clientStep (rtHandshakeSends ctx) s
        (ClientEvent.openEvt now)).1).reconnectDelay = initialReconnectDelay := rfl
    rw [hdelay]
    exact geomDelays_get (k - 1) k initialReconnectDelay (by omega)
      (by norm_num [initialReconnectDelay, maxReconnectDelay])

/-- Witness for C5: three consecutive failures after a successful connect
wait 2000, 4000 and 8000 ms. -/
theorem c5_reconnect_backoff_witness :
    (1 ≤ 3 ∧
      (scheduledDelays (rtHandshakeSends ⟨"key", []⟩)
          ((clientStep (rtHandshakeSends ⟨"key", []⟩) (clientInitState 0)
            (ClientEvent.openEvt 0)).1) (failTrace 3)).get? 2 =
        some (min (initialReconnectDelay * 2 ^ 2) maxReconnectDelay)) ∧
    min (initialReconnectDelay * 2 ^ 2) maxReconnectDelay = 8000 :=
  ⟨⟨by norm_num,
    c5_reconnect_backoff.2 ⟨"key", []⟩ (clientInitState 0) 0 3 rfl (by norm_num)⟩,
   by norm_num [initialReconnectDelay, maxReconnectDelay]⟩

/-- Claim C6: an inbound message whose recognized timestamp field dates it
more than the 10 s threshold before the wall clock is never delivered as
data by either stream client; without a heartbeat marker it lands in the
stale-discard branch. -/
theorem c6_stale_messages_never_forwarded :
    (∀ (now : Int) (data : JVal) (ts : Int),
      rtExtractTimestampMs data = some ts → ts ≠ 0 → now - ts > staleThresholdMs →
      (rtOnMessage now (WireMsg.jsonMsg data)).isDataDelivery = false ∧
      (jsTruthyOpt (data.getField "server_time") = false →
        rtOnMessage now (WireMsg.jsonMsg data) = RtMsgOutcome.staleDiscarded)) ∧
    (∀ (now : Int) (data : JVal) (ts : Int),
      newsExtractTimestampMs data = some ts → ts ≠ 0 → now - ts > staleThresholdMs →
      (newsOnMessage now (WireMsg.jsonMsg data)).isDataDelivery = false ∧
      (jsTruthyOpt (data.getField "server_time") = false →
        newsOnMessage now (WireMsg.jsonMsg data) = NewsMsgOutcome.staleDiscarded)) := by
  constructor
  · intro now data ts hts hne hage
    by_cases hsv : jsTruthyOpt (data.getField "server_time") = true
    · constructor
      · simp [rtOnMessage, hsv, RtMsgOutcome.isDataDelivery]
      · intro hfalse; rw [hfalse] at hsv; exact absurd hsv (by simp)
    · have hsv' : jsTruthyOpt (data.getField "server_time") = false := by
        simpa using hsv
      have houtcome : rtOnMessage now (WireMsg.jsonMsg data) = RtMsgOutcome.staleDiscarded := by
        simp [rtOnMessage, hsv', hts, hne, hage]
      exact ⟨by rw [houtcome]; rfl, fun _ => houtcome⟩
  · intro now data ts hts hne hage
    by_cases hsv : jsTruthyOpt (data.getField "server_time") = true
    · constructor
      · simp [newsOnMessage, hsv, NewsMsgOutcome.isDataDelivery]
      · intro hfalse; rw [hfalse] at hsv; exact absurd hsv (by simp)
    · have hsv' : jsTruthyOpt (data.getField "server_time") = false := by
        simpa using hsv
      have houtcome : newsOnMessage now (WireMsg.jsonMsg data) =
          NewsMsgOutcome.staleDiscarded := by
        simp [newsOnMessage, hsv', hts, hne, hage]
      exact ⟨by rw [houtcome]; rfl, fun _ => houtcome⟩

/-- Witness for C6: a message timestamped 20 s in the past (seconds-epoch
`timestamp` field) against a wall clock 20000 ms later is discarded by both
clients. -/
theorem c6_stale_messages_never_forwarded_witness :
    (rtOnMessage 1700000020000
        (WireMsg.jsonMsg (JVal.jobj [("timestamp", JVal.jnum 1700000000)]))).isDataDelivery =
      false ∧
    rtOnMessage 1700000020000
        (WireMsg.jsonMsg (JVal.jobj [("timestamp", JVal.jnum 1700000000)])) =
      RtMsgOutcome.staleDiscarded ∧
    (newsOnMessage 1700000020000
        (WireMsg.jsonMsg (JVal.jobj [("timestamp", JVal.jnum 1700000000)]))).isDataDelivery =
      false ∧
    newsOnMessage 1700000020000
        (WireMsg.jsonMsg (JVal.jobj [("timestamp", JVal.jnum 1700000000)])) =
      NewsMsgOutcome.staleDiscarded := by
  have h1 := c6_stale_messages_never_forwarded.1 1700000020000
    (JVal.jobj [("timestamp", JVal.jnum 1700000000)]) 1700000000000
    (by decide) (by decide) (by decide)
  have h2 := c6_stale_messages_never_forwarded.2 1700000020000
    (JVal.jobj [("timestamp", JVal.jnum 1700000000)]) 1700000000000
    (by decide) (by decide) (by decide)
  exact ⟨h1.1, h1.2 (by decide), h2.1, h2.2 (by decide)⟩

/-- Claim C7: `connect` with malformed input (missing required
`subscriptions` or `websocketKey`) rejects the promise before any transport
socket is constructed, and once an attempt starts with well-formed input no
handler of the reconnect-capable clients ever rejects the promise —
transport errors are routed into the reconnect loop instead. -/
theorem c7_connect_rejection :
    (∀ (t : Int) (p : RtRawParams), p.subscriptions = none ∨ p.websocketKey = none →
      ∃ msg, rtExecuteFunction t p = RtConnectOutcome.rejectedBeforeSocket msg) ∧
    (∀ (t : Int) (p : NewsRawParams), p.websocketKey = none →
      ∃ msg, newsExecuteFunction t p = NewsConnectOutcome.rejectedBeforeSocket msg) ∧
    (∀ (t : Int) (p : RtRawParams) (ctx : RtCtx) (s0 : StreamClientState),
      rtExecuteFunction t p = RtConnectOutcome.started ctx s0 →
      ∀ (evts : List ClientEvent) (msg : String),
        ClientEffect.rejectPromiseEff msg ∉ clientEffects (rtHandshakeSends ctx) s0 evts) ∧
    (∀ (t : Int) (p : NewsRawParams) (ctx : NewsCtx) (s0 : StreamClientState),
      newsExecuteFunction t p = NewsConnectOutcome.started ctx s0 →
      ∀ (evts : List ClientEvent) (msg : String),
        ClientEffect.rejectPromiseEff msg ∉ clientEffects (newsHandshakeSends ctx) s0 evts) := by
  refine ⟨?_, ?_, ?_, ?_⟩
  · intro t p hmal
    rcases hmal with h | h
    · exact ⟨"subscriptions array is required for real-time data stream.",
        by simp [rtExecuteFunction, h]⟩
    · cases hs : p.subscriptions with
      | none => exact ⟨"subscriptions array is required for real-time data stream.",
          by simp [rtExecuteFunction, hs]⟩
      | some subs => exact ⟨"websocketKey parameter is required for real-time data stream.",
          by simp [rtExecuteFunction, hs, h]⟩
  · intro t p h
    exact ⟨"websocketKey parameter is required for news feed streaming.",
      by simp [newsExecuteFunction, h]⟩
  · intro t p ctx s0 _ evts msg
    exact clientEffects_no_reject _ _ _ _
  · intro t p ctx s0 _ evts msg
    exact clientEffects_no_reject _ _ _ _

/-- Witness for C7: a call missing `subscriptions` rejects before a socket
exists; a well-formed call followed by a transport error and close never
rejects. -/
theorem c7_connect_rejection_witness :
    (∃ msg, rtExecuteFunction 0 ⟨none, some "key"⟩ =
      RtConnectOutcome.rejectedBeforeSocket msg) ∧
    (∃ msg, newsExecuteFunction 0 ⟨none, none, none⟩ =
      NewsConnectOutcome.rejectedBeforeSocket msg) ∧
    ClientEffect.rejectPromiseEff "network error" ∉
      clientEffects (rtHandshakeSends ⟨"key", demoSubscriptions⟩) (clientInitState 0)
        [ClientEvent.openEvt 0, ClientEvent.errorEvt, ClientEvent.closeEvt] :=
  ⟨c7_connect_rejection.1 0 ⟨none, some "key"⟩ (Or.inl rfl),
   c7_connect_rejection.2.1 0 ⟨none, none, none⟩ rfl,
   c7_connect_rejection.2.2.1 0 ⟨some demoSubscriptions, some "key"⟩
     ⟨"key", demoSubscriptions⟩ (clientInitState 0) rfl
     [ClientEvent.openEvt 0, ClientEvent.errorEvt, ClientEvent.closeEvt] "network error"⟩

/-- Claim C8: the handshake replay is idempotent — in any run of a
reconnect-capable stream client every connect attempt sends exactly the
payload list built once from the immutable descriptor and credentials, so
the auth and subscribe/filter payloads of any reconnect are byte-identical
to those of the first attempt, in the same order. -/
theorem c8_handshake_replay :
    (∀ (ctx : RtCtx) (s : StreamClientState) (evts : List ClientEvent) (i j : Nat)
      (xs ys : List String),
      (clientOpensPayloads (rtHandshakeSends ctx) s evts).get? i = some xs →
      (clientOpensPayloads (rtHandshakeSends ctx) s evts).get? j = some ys →
      xs = ys ∧ xs = [rtAuthMessage ctx.websocketKey,
        rtSubscribeMessage ctx.websocketKey ctx.subscriptions]) ∧
    (∀ (ctx : NewsCtx) (s : StreamClientState) (evts : List ClientEvent) (i j : Nat)
      (xs ys : List String),
      (clientOpensPayloads (newsHandshakeSends ctx) s evts).get? i = some xs →
      (clientOpensPayloads (newsHandshakeSends ctx) s evts).get? j = some ys →
      xs = ys ∧ xs = newsHandshakeSends ctx) := by
  constructor
  · intro ctx s evts i j xs ys hi hj
    have hx := clientOpensPayloads_const _ _ _ _ (List.get?_mem hi)
    have hy := clientOpensPayloads_const _ _ _ _ (List.get?_mem hj)
    exact ⟨hx.trans hy.symm, hx⟩
  · intro ctx s evts i j xs ys hi hj
    have hx := clientOpensPayloads_const _ _ _ _ (List.get?_mem hi)
    have hy := clientOpensPayloads_const _ _ _ _ (List.get?_mem hj)
    exact ⟨hx.trans hy.symm, hx⟩

/-- Witness for C8: with the two-descriptor subscription list, the attempt
before and the attempt after a forced reconnect send identical payloads. -/
theorem c8_handshake_replay_witness :
    (clientOpensPayloads (rtHandshakeSends ⟨"key", demoSubscriptions⟩) (clientInitState 0)
        [ClientEvent.openEvt 0, ClientEvent.closeEvt, ClientEvent.timerFireEvt,
         ClientEvent.openEvt 5000]).get? 0 =
      some (rtHandshakeSends ⟨"key", demoSubscriptions⟩) ∧
    (clientOpensPayloads (rtHandshakeSends ⟨"key", demoSubscriptions⟩) (clientInitState 0)
        [ClientEvent.openEvt 0, ClientEvent.closeEvt, ClientEvent.timerFireEvt,
         ClientEvent.openEvt 5000]).get? 1 =
      some (rtHandshakeSends ⟨"key", demoSubscriptions⟩) ∧
    rtHandshakeSends ⟨"key", demoSubscriptions⟩ =
      [rtAuthMessage "key", rtSubscribeMessage "key" demoSubscriptions] :=
  ⟨rfl, rfl,
   (c8_handshake_replay.1 ⟨"key", demoSubscriptions⟩ (clientInitState 0)
     [ClientEvent.openEvt 0, ClientEvent.closeEvt, ClientEvent.timerFireEvt,
      ClientEvent.openEvt 5000] 0 1 _ _ rfl rfl).2⟩

/-- Claim C9: a connection at a path naming no registered stream kind gets
exactly one data frame, the structured unknown-tool error payload, followed
by a close with the policy-violation status code 1008, and no upstream
factory is ever invoked. -/
theorem c9_unknown_tool (name : String)
    (hname : lookupTool name = none)
    (hchars : ∀ c ∈ name.toList, (c != '?' && c != '#') = true) :
    relayOnConnection ('/' :: name.toList) =
      [ConnEffect.sendClient (unknownToolPayload name),
       ConnEffect.closeClient 1008 "Unknown tool"] ∧
    ∀ (k : ToolKind) (n : Nat),
      ConnEffect.invokeFactory k n ∉ relayOnConnection ('/' :: name.toList) := by
  have hpath : pathToolNameChars ('/' :: name.toList) = name.toList := by
    simp only [pathToolNameChars]
    rw [List.takeWhile_cons_of_pos (by rfl)]
    rw [List.takeWhile_eq_self_iff.2 hchars]
    rfl
  have hmk : String.mk name.toList = name := rfl
  constructor
  · simp only [relayOnConnection, hpath, hmk, hname]
  · intro k n
    simp only [relayOnConnection, hpath, hmk, hname]
    simp

/-- Witness for C9 at `/not_a_real_tool`: the single error frame carries
exactly the JSON text the relay sends. -/
theorem c9_unknown_tool_witness :
    relayOnConnection (String.toList "/not_a_real_tool") =
      [ConnEffect.sendClient "\x7b\"error\":\"Unknown tool: not_a_real_tool\"\x7d",
       ConnEffect.closeClient 1008 "Unknown tool"] ∧
    (∀ (k : ToolKind) (n : Nat),
      ConnEffect.invokeFactory k n ∉ relayOnConnection (String.toList "/not_a_real_tool")) := by
  have h := c9_unknown_tool "not_a_real_tool" (by decide) (by decide)
  refine ⟨?_, h.2⟩
  have hpayload : unknownToolPayload "not_a_real_tool" =
      "\x7b\"error\":\"Unknown tool: not_a_real_tool\"\x7d" := rfl
  rw [← hpayload]
  exact h.1

/-- Claim C2 fails on the code: the connection handler of
`streamingServer.js` never reads the query string — it invokes the matched
tool function with zero arguments (`toolFunction()`), so at
`/connect_news_feed?symbols=["AAPL"]` the news factory receives the
`params = {}` default, rejects for the missing `websocketKey` before any
upstream socket exists, and no auth or `filter_symbols` payload is ever
sent. -/
theorem c2_query_params_dropped :
    relayOnConnection (String.toList "/connect_news_feed?symbols=[\"AAPL\"]") =
      [ConnEffect.invokeFactory ToolKind.newsFeed 0] ∧
    newsExecuteFunction 0 emptyNewsParams =
      NewsConnectOutcome.rejectedBeforeSocket
        "websocketKey parameter is required for news feed streaming." :=
  ⟨rfl, rfl⟩

/-- Claim C1 fails on the code: `shouldReconnect` is never cleared and the
relay only overwrites the tool handlers once the factory promise resolves,
so when the client channel closes while the upstream client is between
reconnect attempts the pending timer still fires, a second upstream
transport is created after the client-close event, the promise then
resolves, and the resulting upstream handle is never closed (the relay's
`ws.onclose` is assigned to an already-closed channel and never fires). -/
theorem c1_reconnect_after_client_close :
    (sessionRun demoSessCtx (awaitingInitState 0) (c1Trace.take 2)).clientClosedEvt = true ∧
    (sessionRun demoSessCtx (awaitingInitState 0) (c1Trace.take 2)).client =
      ReadyState.rsClosed ∧
    (sessionEffects demoSessCtx (awaitingInitState 0) c1Trace).get? 2 =
      some [SessEffect.newUpstreamConnection] ∧
    (sessionRun demoSessCtx (awaitingInitState 0) c1Trace).rt.socketsCreated = 2 ∧
    (sessionRun demoSessCtx (awaitingInitState 0) c1Trace).rt.promiseResolved = true ∧
    (sessionRun demoSessCtx (awaitingInitState 0) c1Trace).phase = Phase.piping ∧
    (sessionRun demoSessCtx (awaitingInitState 0) c1Trace).upstream = ReadyState.rsOpen ∧
    (sessionRun demoSessCtx (awaitingInitState 0) c1Trace).rt.shouldReconnect = true :=
  ⟨rfl, rfl, rfl, rfl, rfl, rfl, rfl, rfl⟩

/-- Claim C4 fails on the code: the relay's `ws.onmessage` handler receives
a `MessageEvent` and passes the event object itself to
`clientSocket.send(message)` instead of `message.data`, so what reaches the
upstream send is the event wrapper, not the byte-identical client payload
(the upstream-to-client direction correctly forwards `event.data`). -/
theorem c4_client_forward_not_verbatim :
    (sessionStep demoSessCtx (pipingInitState (clientInitState 0))
        (SysEvent.clientMsgEvt ⟨"test"⟩)).2 =
      [SessEffect.sendUpstream (JsValue.messageEventVal "test")] ∧
    JsValue.messageEventVal "test" ≠ JsValue.strVal "test" :=
  ⟨rfl, by decide⟩

/-- Claim C3: in a piping session whose upstream socket honours WebSocket
event order (`message* (error close | close | ε)`), the client-visible
history is well-formed — at most one error payload, no data frame after an
error payload on the still-open channel, and an error payload is followed
by channel closure. -/
theorem c3_error_dichotomy (ctx : SessCtx) (rt : StreamClientState)
    (tr : List SysEvent) (hshape : UpShape (upEvtsOf tr)) :
    obsOk (sessionObs ctx (pipingInitState rt) tr) = true :=
  sessionObs_ok_aux ctx tr (pipingInitState rt) rfl hshape

/-- Witness for C3 on a concrete trace: one data frame, then the upstream
errors and closes. -/
theorem c3_error_dichotomy_witness :
    obsOk (sessionObs demoSessCtx (pipingInitState (clientInitState 0))
      [SysEvent.upMsgEvt ⟨"a"⟩, SysEvent.upErrorEvt, SysEvent.upCloseEvt]) = true :=
  c3_error_dichotomy demoSessCtx (clientInitState 0)
    [SysEvent.upMsgEvt ⟨"a"⟩, SysEvent.upErrorEvt, SysEvent.upCloseEvt]
    (UpShape.msgShape _ UpShape.errCloseShape)

/-- Claim C10: during piping an upstream message is forwarded to the client
exactly when the client channel's readyState is OPEN and is otherwise
dropped without any state change or later delivery; the same OPEN guard
protects the error payload; and the client-close handler closes the
upstream handle exactly when it is OPEN or CONNECTING. -/
theorem c10_forwarding_guards :
    (∀ (ctx : SessCtx) (s : RelaySession) (m : MessageEvent),
      s.phase = Phase.piping → s.client = ReadyState.rsOpen →
      (sessionStep ctx s (SysEvent.upMsgEvt m)).2 = [SessEffect.deliverData m.data]) ∧
    (∀ (ctx : SessCtx) (s : RelaySession) (m : MessageEvent),
      s.phase = Phase.piping → s.client ≠ ReadyState.rsOpen →
      (sessionStep ctx s (SysEvent.upMsgEvt m)).2 = [] ∧
        (sessionStep ctx s (SysEvent.upMsgEvt m)).1 = s) ∧
    (∀ (ctx : SessCtx) (tr : List SysEvent) (s : RelaySession) (i : Nat)
      (fx : List SessEffect) (p : String),
      s.phase = Phase.piping → (sessionEffects ctx s tr).get? i = some fx →
      SessEffect.deliverData p ∈ fx →
      ∃ m : MessageEvent, tr.get? i = some (SysEvent.upMsgEvt m) ∧ m.data = p ∧
        (sessionRun ctx s (tr.take i)).client = ReadyState.rsOpen) ∧
    (∀ (ctx : SessCtx) (s : RelaySession),
      s.phase = Phase.piping →
      (sessionStep ctx s SysEvent.upErrorEvt).2 =
        (if s.client = ReadyState.rsOpen then
          [SessEffect.deliverError (targetErrorPayload ctx.toolName)] else [])) ∧
    (∀ (ctx : SessCtx) (s : RelaySession),
      s.phase = Phase.piping →
      (SessEffect.closeUpstream ∈ (sessionStep ctx s SysEvent.clientCloseEvt).2 ↔
        (s.upstream = ReadyState.rsOpen ∨ s.upstream = ReadyState.rsConnecting))) := by
  refine ⟨?_, ?_, ?_, ?_, ?_⟩
  · intro ctx s m hp hc
    simp [sessionStep, hp, hc]
  · intro ctx s m hp hc
    constructor <;> simp [sessionStep, hp, hc]
  · intro ctx tr s i fx p hp hget hmem
    exact sessionEffects_deliverData ctx tr s i fx p hp hget hmem
  · intro ctx s hp
    by_cases hc : s.client = ReadyState.rsOpen <;> simp [sessionStep, hp, hc]
  · intro ctx s hp
    cases hu : s.upstream <;> simp [sessionStep, hp, hu]

/-- Witness for C10: in a fresh piping session an upstream message is
forwarded verbatim, and the client-close handler closes the (open)
upstream handle. -/
theorem c10_forwarding_guards_witness :
    (sessionStep demoSessCtx (pipingInitState (clientInitState 0))
        (SysEvent.upMsgEvt ⟨"x"⟩)).2 = [SessEffect.deliverData "x"] ∧
    (SessEffect.closeUpstream ∈
        (sessionStep demoSessCtx (pipingInitState (clientInitState 0))
          SysEvent.clientCloseEvt).2 ↔
      ((pipingInitState (clientInitState 0)).upstream = ReadyState.rsOpen ∨
        (pipingInitState (clientInitState 0)).upstream = ReadyState.rsConnecting)) :=
  ⟨c10_forwarding_guards.1 demoSessCtx (pipingInitState (clientInitState 0)) ⟨"x"⟩ rfl rfl,
   c10_forwarding_guards.2.2.2.2 demoSessCtx (pipingInitState (clientInitState 0)) rfl⟩
